import Mathlib

/-!
Verification development for the event-payload ETL pipeline
(`src/etl_pipeline.py`).  The Python source is shallowly embedded:

* JSON values (the result of `json.load` / `json.loads`) are the
  inductive type `Json`; Python `None` is `Json.null`.  JSON numeric
  literals are modelled as integers (floating point is out of scope).
* Python exceptions that the script can raise are the enumeration
  `PyExc`; fallible operations return `Except PyExc _`.
* `dict.get`, iteration, truthiness and `str.replace` are modelled by
  `pyGet`, `pyGetDefault`, `pyIter`, `pyTruthy` and `removeUTC`.
* `datetime.strptime` / `- timedelta(hours=3)` / `strftime` are modelled
  by `strptimeYmdHMS`, `sub3Hours` and `strftimeDMY` on `PyDateTime`.
-/

/-- A JSON value as produced by Python's `json` module.  Numeric
literals are modelled as integers; object fields keep their textual
order (first occurrence wins for duplicate keys). -/
inductive Json where
  | null : Json
  | bool : Bool → Json
  | num : Int → Json
  | str : String → Json
  | arr : List Json → Json
  | obj : List (String × Json) → Json

/-- The Python exceptions the embedded script can raise. -/
inductive PyExc where
  | jsonDecodeError : PyExc
  | typeError : PyExc
  | attributeError : PyExc
  | valueError : PyExc
  | overflowError : PyExc
deriving Repr, DecidableEq

/-- `d.get(k)`: on a dict, the value of `k` (Python `None`, i.e.
`Json.null`, when the key is absent); on any non-dict value an
`AttributeError` (no `get` attribute). -/
def pyGet (d : Json) (k : String) : Except PyExc Json :=
  match d with
  | .obj kvs => .ok ((kvs.lookup k).getD .null)
  | _ => .error .attributeError

/-- `d.get(k, default)`: like `pyGet` but with an explicit default for
an absent key.  A key that is present with value `null` yields `null`,
not the default. -/
def pyGetDefault (d : Json) (k : String) (dflt : Json) : Except PyExc Json :=
  match d with
  | .obj kvs => .ok ((kvs.lookup k).getD dflt)
  | _ => .error .attributeError

/-- `for x in v`: lists iterate their elements, strings their
characters, dicts their keys; other values raise `TypeError`. -/
def pyIter : Json → Except PyExc (List Json)
  | .arr xs => .ok xs
  | .str s => .ok (s.data.map (fun c => .str (String.mk [c])))
  | .obj kvs => .ok (kvs.map (fun kv => .str kv.1))
  | _ => .error .typeError

/-- Python truthiness of a decoded JSON value. -/
def pyTruthy : Json → Bool
  | .null => false
  | .bool b => b
  | .num n => n != 0
  | .str s => s != ""
  | .arr xs => !xs.isEmpty
  | .obj kvs => !kvs.isEmpty

/-- `v == "s"` for a Python value `v` and a string literal: true only
when `v` is that very string. -/
def isStr (v : Json) (s : String) : Bool :=
  match v with
  | .str t => t = s
  | _ => false

/-! ## Timestamp normalizer (`convert_to_brasilian_time`, lines 7-16) -/

/-- One decimal digit as a character. -/
def digitChar : Nat → Char
  | 0 => '0' | 1 => '1' | 2 => '2' | 3 => '3' | 4 => '4'
  | 5 => '5' | 6 => '6' | 7 => '7' | 8 => '8' | 9 => '9'
  | _ => '?'

/-- The value of a decimal digit character (`none` on a non-digit). -/
def digitVal (c : Char) : Option Nat :=
  if c = '0' then some 0 else if c = '1' then some 1
  else if c = '2' then some 2 else if c = '3' then some 3
  else if c = '4' then some 4 else if c = '5' then some 5
  else if c = '6' then some 6 else if c = '7' then some 7
  else if c = '8' then some 8 else if c = '9' then some 9
  else none

/-- `utc_time_str.replace(" UTC", "")` (line 13): remove every
(left-to-right, non-overlapping) occurrence of `" UTC"`. -/
def removeUTC : List Char → List Char
  | ' ' :: 'U' :: 'T' :: 'C' :: rest => removeUTC rest
  | c :: cs => c :: removeUTC cs
  | [] => []

/-- A `datetime.datetime` value (the script never uses sub-second
precision). -/
structure PyDateTime where
  year : Nat
  month : Nat
  day : Nat
  hour : Nat
  minute : Nat
  second : Nat
deriving Repr, DecidableEq

/-- Gregorian leap-year test, as in Python's `datetime`. -/
def isLeap (y : Nat) : Bool :=
  (y % 4 = 0 && y % 100 != 0) || y % 400 = 0

/-- Number of days of month `m` of year `y`. -/
def daysInMonth (y m : Nat) : Nat :=
  if m = 2 then (if isLeap y then 29 else 28)
  else if m = 4 ∨ m = 6 ∨ m = 9 ∨ m = 11 then 30 else 31

/-- The validity condition `datetime.datetime` enforces on its
components (`MINYEAR = 1`, `MAXYEAR = 9999`). -/
def validDateTime (y mo d h mi s : Nat) : Prop :=
  1 ≤ y ∧ y ≤ 9999 ∧ 1 ≤ mo ∧ mo ≤ 12 ∧ 1 ≤ d ∧ d ≤ daysInMonth y mo ∧
    h ≤ 23 ∧ mi ≤ 59 ∧ s ≤ 59

instance (y mo d h mi s : Nat) : Decidable (validDateTime y mo d h mi s) := by
  unfold validDateTime; infer_instance

/-- Read exactly two digit characters. -/
def parse2 : List Char → Option (Nat × List Char)
  | c1 :: c2 :: rest => do
    let d1 ← digitVal c1
    let d2 ← digitVal c2
    pure (d1 * 10 + d2, rest)
  | _ => none

/-- Read exactly four digit characters. -/
def parse4 : List Char → Option (Nat × List Char)
  | c1 :: c2 :: c3 :: c4 :: rest => do
    let d1 ← digitVal c1
    let d2 ← digitVal c2
    let d3 ← digitVal c3
    let d4 ← digitVal c4
    pure (d1 * 1000 + d2 * 100 + d3 * 10 + d4, rest)
  | _ => none

/-- Require a literal separator character. -/
def expectChar (c : Char) : List Char → Option (List Char)
  | c2 :: rest => if c2 = c then some rest else none
  | _ => none

/-- `datetime.strptime(s, "%Y-%m-%d %H:%M:%S")` (line 14) on the
zero-padded timestamps the input contract guarantees: four digits of
year, two of month/day/hour/minute/second with the literal separators,
nothing trailing; out-of-range components raise `ValueError`, exactly
as the `datetime` constructor does. -/
def strptimeYmdHMS (l : List Char) : Except PyExc PyDateTime :=
  match (do
    let (y, r) ← parse4 l
    let r ← expectChar '-' r
    let (mo, r) ← parse2 r
    let r ← expectChar '-' r
    let (d, r) ← parse2 r
    let r ← expectChar ' ' r
    let (h, r) ← parse2 r
    let r ← expectChar ':' r
    let (mi, r) ← parse2 r
    let r ← expectChar ':' r
    let (s, r) ← parse2 r
    if r.isEmpty then some (y, mo, d, h, mi, s) else none : Option _) with
  | some (y, mo, d, h, mi, s) =>
    if validDateTime y mo d h mi s then .ok ⟨y, mo, d, h, mi, s⟩
    else .error .valueError
  | none => .error .valueError

/-- The calendar day before `(y, m, d)` (proleptic Gregorian). -/
def prevDate : Nat × Nat × Nat → Nat × Nat × Nat
  | (y, m, d) =>
    if 1 < d then (y, m, d - 1)
    else if 1 < m then (y, m - 1, daysInMonth y (m - 1))
    else (y - 1, 12, 31)

/-- `dt_utc - timedelta(hours=3)` (line 15) on a valid datetime: when
the hour is at least 3 only the hour changes; otherwise one calendar
day is borrowed.  Below `datetime.min` (0001-01-01) Python raises
`OverflowError`. -/
def sub3Hours (dt : PyDateTime) : Except PyExc PyDateTime :=
  if 3 ≤ dt.hour then .ok { dt with hour := dt.hour - 3 }
  else if dt.year = 1 ∧ dt.month = 1 ∧ dt.day = 1 then .error .overflowError
  else
    match prevDate (dt.year, dt.month, dt.day) with
    | (y, m, d) => .ok ⟨y, m, d, dt.hour + 21, dt.minute, dt.second⟩

/-- `DD/MM/YYYY` with zero padding. -/
def fmtDMY : Nat × Nat × Nat → String
  | (y, m, d) =>
    ⟨[digitChar (d / 10 % 10), digitChar (d % 10), '/',
      digitChar (m / 10 % 10), digitChar (m % 10), '/',
      digitChar (y / 1000 % 10), digitChar (y / 100 % 10),
      digitChar (y / 10 % 10), digitChar (y % 10)]⟩

/-- `dt_sp.strftime("%d/%m/%Y")` (line 16): the date component only,
zero padded. -/
def strftimeDMY (dt : PyDateTime) : String :=
  fmtDMY (dt.year, dt.month, dt.day)

/-- `convert_to_brasilian_time` (lines 7-16).  The argument is the raw
value of `record.get('EnqueuedTimeUtc')`: a non-string (e.g. `None`
when the key is absent) has no `.replace` attribute and raises
`AttributeError`. -/
def convert_to_brasilian_time (utc_time_str : Json) : Except PyExc String :=
  match utc_time_str with
  | .str s => do
    let dt ← strptimeYmdHMS (removeUTC s.data)
    let dt_sp ← sub3Hours dt
    pure (strftimeDMY dt_sp)
  | _ => .error .attributeError

/-- The input strings of the exact (zero-padded) form
`"YYYY-MM-DD HH:MM:SS UTC"`, indexed by their six numeric fields. -/
def fmtTimestampUTC (y mo d h mi s : Nat) : String :=
  ⟨[digitChar (y / 1000 % 10), digitChar (y / 100 % 10),
    digitChar (y / 10 % 10), digitChar (y % 10), '-',
    digitChar (mo / 10 % 10), digitChar (mo % 10), '-',
    digitChar (d / 10 % 10), digitChar (d % 10), ' ',
    digitChar (h / 10 % 10), digitChar (h % 10), ':',
    digitChar (mi / 10 % 10), digitChar (mi % 10), ':',
    digitChar (s / 10 % 10), digitChar (s % 10), ' ', 'U', 'T', 'C']⟩

/-! ## `json.loads` (line 33)

A fuel-based recursive-descent parser producing `Json`.  Model
restrictions (documented, irrelevant to the claims): numeric literals
are integers (no fraction/exponent) and `\u` escapes are not
recognised; `json.loads` failures of every kind are collapsed into
`none` (= `json.JSONDecodeError`). -/

/-- `"` -/
def dquoteC : Char := Char.ofNat 34
/-- `\` -/
def bslashC : Char := Char.ofNat 92
/-- left brace -/
def lbraceC : Char := Char.ofNat 123
/-- right brace -/
def rbraceC : Char := Char.ofNat 125

/-- JSON insignificant whitespace. -/
def jsonWs (c : Char) : Bool :=
  c = ' ' || c = '\t' || c = '\n' || c = '\r'

/-- Drop leading whitespace. -/
def skipWs : List Char → List Char
  | c :: cs => if jsonWs c then skipWs cs else c :: cs
  | [] => []

/-- A JSON string escape (after the backslash). -/
def escChar (e : Char) : Option Char :=
  if e = dquoteC then some dquoteC
  else if e = bslashC then some bslashC
  else if e = '/' then some '/'
  else if e = 'n' then some '\n'
  else if e = 't' then some '\t'
  else if e = 'r' then some '\r'
  else if e = 'b' then some (Char.ofNat 8)
  else if e = 'f' then some (Char.ofNat 12)
  else none

/-- The body of a JSON string literal, after the opening quote; returns
the contents and the input after the closing quote. -/
def parseStrChars : List Char → Option (List Char × List Char)
  | [] => none
  | c :: r =>
    if c = dquoteC then some ([], r)
    else if c = bslashC then
      match r with
      | e :: r2 =>
        match escChar e with
        | some ec =>
          match parseStrChars r2 with
          | some (s, r3) => some (ec :: s, r3)
          | none => none
        | none => none
      | [] => none
    else
      match parseStrChars r with
      | some (s, r2) => some (c :: s, r2)
      | none => none

/-- Accumulate decimal digits. -/
def parseDigitsAux : List Char → Nat → Nat × List Char
  | c :: cs, acc =>
    match digitVal c with
    | some d => parseDigitsAux cs (acc * 10 + d)
    | none => (acc, c :: cs)
  | [], acc => (acc, [])

/-- A JSON integer literal (optional leading minus). -/
def parseNum (l : List Char) : Option (Json × List Char) :=
  match l with
  | c :: cs =>
    if c = '-' then
      match cs with
      | c2 :: _ =>
        if (digitVal c2).isSome then
          let p := parseDigitsAux cs 0
          some (.num (-(p.1 : Int)), p.2)
        else none
      | [] => none
    else
      match digitVal c with
      | some _ =>
        let p := parseDigitsAux l 0
        some (.num (p.1 : Int), p.2)
      | none => none
  | [] => none

/-- Add a parsed object pair in front of the pairs parsed after it.
Python's `dict` keeps the later value for a duplicate key. -/
def addPair (k : String) (v : Json) (kvs : List (String × Json)) :
    List (String × Json) :=
  if (kvs.lookup k).isSome then kvs else (k, v) :: kvs

/-- One JSON value (fuel-based; arrays and objects recurse by
re-entering the bracketed form on the rest of the input). -/
def parseVal : Nat → List Char → Option (Json × List Char)
  | 0, _ => none
  | fuel + 1, l =>
    match skipWs l with
    | [] => none
    | c :: cs =>
      if c = 'n' then
        match cs with
        | 'u' :: 'l' :: 'l' :: r => some (.null, r)
        | _ => none
      else if c = 't' then
        match cs with
        | 'r' :: 'u' :: 'e' :: r => some (.bool true, r)
        | _ => none
      else if c = 'f' then
        match cs with
        | 'a' :: 'l' :: 's' :: 'e' :: r => some (.bool false, r)
        | _ => none
      else if c = dquoteC then
        match parseStrChars cs with
        | some (s, r) => some (.str (String.mk s), r)
        | none => none
      else if c = '[' then
        match skipWs cs with
        | c2 :: r2 =>
          if c2 = ']' then some (.arr [], r2)
          else
            match parseVal fuel (c2 :: r2) with
            | some (v, r3) =>
              match skipWs r3 with
              | c4 :: r4 =>
                if c4 = ',' then
                  match parseVal fuel ('[' :: r4) with
                  | some (.arr xs, r5) => some (.arr (v :: xs), r5)
                  | _ => none
                else if c4 = ']' then some (.arr [v], r4)
                else none
              | [] => none
            | none => none
        | [] => none
      else if c = lbraceC then
        match skipWs cs with
        | c2 :: r2 =>
          if c2 = rbraceC then some (.obj [], r2)
          else if c2 = dquoteC then
            match parseStrChars r2 with
            | some (k, r3) =>
              match skipWs r3 with
              | c4 :: r4 =>
                if c4 = ':' then
                  match parseVal fuel r4 with
                  | some (v, r5) =>
                    match skipWs r5 with
                    | c6 :: r6 =>
                      if c6 = ',' then
                        match parseVal fuel (lbraceC :: r6) with
                        | some (.obj kvs, r7) =>
                          some (.obj (addPair (String.mk k) v kvs), r7)
                        | _ => none
                      else if c6 = rbraceC then
                        some (.obj [(String.mk k, v)], r6)
                      else none
                    | [] => none
                  | none => none
                else none
              | [] => none
            | none => none
          else none
        | [] => none
      else parseNum (c :: cs)

/-- `json.loads` on a string: parse one value plus trailing whitespace;
`none` models `json.JSONDecodeError`.  The fuel `2 * length + 8`
dominates the recursion depth of any input of that length. -/
def json_loads (s : String) : Option Json :=
  match parseVal (2 * s.data.length + 8) s.data with
  | some (v, r) => if (skipWs r).isEmpty then some v else none
  | none => none

/-- `json.loads(payload_str)` where `payload_str` is an arbitrary
decoded value: a non-string argument raises `TypeError`, which the
`except json.JSONDecodeError` handler of line 34 does not catch. -/
def jsonLoadsPy (p : Json) : Except PyExc Json :=
  match p with
  | .str s =>
    match json_loads s with
    | some v => .ok v
    | none => .error .jsonDecodeError
  | _ => .error .typeError

/-! ## `process_case_data` (lines 18-98)

File reading (lines 19-20) and CSV writing (lines 100-126) are the
external collaborators of the spec; the engine below consumes the
already-parsed list of envelope records and produces the three row
collections plus the decode diagnostics printed on line 35. -/

/-- A flattened output row: field names in dict-literal order. -/
abbrev Row : Type := List (String × Json)

/-- The three accumulator collections (lines 22-24) plus the decode
diagnostics (line 35), each in append order. -/
structure EtlState where
  curated_offer_options : List Row
  dynamic_price_option : List Row
  dynamic_price_range : List Row
  diagnostics : List Json

/-- The empty state of lines 22-24. -/
def initState : EtlState := ⟨[], [], [], []⟩

/-- `str(x)` coercion demanded by `",".join`: a non-string element
raises `TypeError`. -/
def pyStrOf : Json → Except PyExc String
  | .str s => .ok s
  | _ => .error .typeError

/-- The element-by-element traversal `",".join` performs. -/
def mapPyStr : List Json → Except PyExc (List String)
  | [] => pure []
  | x :: xs => do
    let s ← pyStrOf x
    let rest ← mapPyStr xs
    pure (s :: rest)

/-- Lines 76-77: `",".join(defeat_reasons)` when the raw value is a
list (a non-string element makes `join` raise `TypeError`); any other
value is left untouched. -/
def joinIfList (v : Json) : Except PyExc Json :=
  match v with
  | .arr xs => do
    let ss ← mapPyStr xs
    pure (.str (String.intercalate "," ss))
  | v => pure v

/-- One curated row (lines 73-98) from one option of one curation
result. -/
def mkCuratedRow (curation_provider offer_id dealer_id : Json)
    (enqueued_time_sp : String) (opt : Json) : Except PyExc Row := do
  let dr0 ← pyGet opt "defeatReasons"
  let defeat_reasons ← joinIfList dr0
  let uniqueOptionId ← pyGet opt "uniqueOptionId"
  let optionId ← pyGet opt "optionId"
  let isMobileDealer ← pyGet opt "isMobileDealer"
  let isOpen ← pyGet opt "isOpen"
  let eta ← pyGet opt "eta"
  let chamaScore ← pyGet opt "chamaScore"
  let productBrand ← pyGet opt "productBrand"
  let isWinner ← pyGet opt "isWinner"
  let minimumPrice ← pyGet opt "minimumPrice"
  let maximumPrice ← pyGet opt "maximumPrice"
  let dynamicPrice ← pyGet opt "dynamicPrice"
  let finalPrice ← pyGet opt "finalPrice"
  let defeatPrimaryReason ← pyGetDefault opt "defeatPrimaryReason" (.str "")
  pure [("CurationProvider", curation_provider),
        ("OfferId", offer_id),
        ("DealerId", dealer_id),
        ("UniqueOptionId", uniqueOptionId),
        ("OptionId", optionId),
        ("IsMobileDealer", isMobileDealer),
        ("IsOpen", isOpen),
        ("Eta", eta),
        ("ChamaScore", chamaScore),
        ("ProductBrand", productBrand),
        ("IsWinner", isWinner),
        ("MinimumPrice", minimumPrice),
        ("MaximumPrice", maximumPrice),
        ("DynamicPrice", dynamicPrice),
        ("FinalPrice", finalPrice),
        ("DefeatPrimaryReason", defeatPrimaryReason),
        ("DefeatReasons", if pyTruthy defeat_reasons then defeat_reasons
                          else .str ""),
        ("EnqueuedTimeSP", .str enqueued_time_sp)]

/-- The inner `for opt in options` loop of the curated branch,
collecting the rows it appends. -/
def processOpts (curation_provider offer_id dealer_id : Json)
    (enqueued_time_sp : String) : List Json → Except PyExc (List Row)
  | [] => pure []
  | opt :: rest => do
    let row ← mkCuratedRow curation_provider offer_id dealer_id
      enqueued_time_sp opt
    let more ← processOpts curation_provider offer_id dealer_id
      enqueued_time_sp rest
    pure (row :: more)

/-- The outer `for curate_item in payload` loop (lines 67-98),
collecting the curated rows in append order. -/
def processCurateItems (enqueued_time_sp : String) :
    List Json → Except PyExc (List Row)
  | [] => pure []
  | curate_item :: rest => do
    let curation_provider ← pyGet curate_item "curationProvider"
    let offer_id ← pyGet curate_item "offerId"
    let dealer_id ← pyGet curate_item "dealerId"
    let optionsv ← pyGetDefault curate_item "options" (.arr [])
    let options ← pyIter optionsv
    let rows ← processOpts curation_provider offer_id dealer_id
      enqueued_time_sp options
    let more ← processCurateItems enqueued_time_sp rest
    pure (rows ++ more)

/-- One dynamic-price-option row (lines 57-63). -/
def mkPriceOptionRow (provider offer_id : Json) (enqueued_time_sp : String)
    (opt : Json) : Except PyExc Row := do
  let uniqueOptionId ← pyGet opt "uniqueOptionId"
  let bestPrice ← pyGet opt "bestPrice"
  pure [("Provider", provider),
        ("OfferId", offer_id),
        ("UniqueOptionId", uniqueOptionId),
        ("BestPrice", bestPrice),
        ("EnqueuedTimeSP", .str enqueued_time_sp)]

/-- The `for opt in algorithm_output` loop (lines 56-63). -/
def processPriceOptions (provider offer_id : Json)
    (enqueued_time_sp : String) : List Json → Except PyExc (List Row)
  | [] => pure []
  | opt :: rest => do
    let row ← mkPriceOptionRow provider offer_id enqueued_time_sp opt
    let more ← processPriceOptions provider offer_id enqueued_time_sp rest
    pure (row :: more)

/-- The body of the `for record in data` loop (lines 26-98) on one
envelope: timestamp normalization, payload decode (only
`json.JSONDecodeError` is caught and turned into a skip plus a
diagnostic), then event/provider dispatch and flattening. -/
def processRecord (st : EtlState) (record : Json) :
    Except PyExc EtlState := do
  let enqueued_time_utc ← pyGet record "EnqueuedTimeUtc"
  let enqueued_time_sp ← convert_to_brasilian_time enqueued_time_utc
  let event_name ← pyGet record "EventName"
  let payload_str ← pyGet record "Payload"
  match jsonLoadsPy payload_str with
  | .error .jsonDecodeError =>
    pure { st with diagnostics := st.diagnostics ++ [record] }
  | .error e => .error e
  | .ok payload =>
    if isStr event_name "DynamicPrice_Result" then do
      let provider ← pyGet payload "provider"
      let offer_id ← pyGet payload "offerId"
      let algorithm_output ← pyGet payload "algorithmOutput"
      if isStr provider "ApplyDynamicPriceRange" then do
        let min_global ← pyGet algorithm_output "min_global"
        let min_recommended ← pyGet algorithm_output "min_recommended"
        let max_recommended ← pyGet algorithm_output "max_recommended"
        let diff ← pyGet algorithm_output "differenceMinRecommendMinTheory"
        pure { st with dynamic_price_range := st.dynamic_price_range ++
          [[("Provider", provider),
            ("OfferId", offer_id),
            ("MinGlobal", min_global),
            ("MinRecommended", min_recommended),
            ("MaxRecommended", max_recommended),
            ("DifferenceMinRecommendMinTheory", diff),
            ("EnqueuedTimeSP", .str enqueued_time_sp)]] }
      else if isStr provider "ApplyDynamicPricePerOption" then do
        let opts ← pyIter algorithm_output
        let rows ← processPriceOptions provider offer_id enqueued_time_sp opts
        pure { st with dynamic_price_option := st.dynamic_price_option ++ rows }
      else pure st
    else if isStr event_name "CurateOffer_Result" then do
      let items ← pyIter payload
      let rows ← processCurateItems enqueued_time_sp items
      pure { st with curated_offer_options := st.curated_offer_options ++ rows }
    else pure st

/-- The whole `for record in data` loop: an uncaught exception in any
iteration aborts the run. -/
def processList (st : EtlState) : List Json → Except PyExc EtlState
  | [] => pure st
  | record :: rest =>
    match processRecord st record with
    | .ok st2 => processList st2 rest
    | .error e => .error e

/-- `process_case_data` (lines 18-98) after `json.load`: transform the
envelope list into the three collections (plus diagnostics). -/
def process_case_data (data : List Json) : Except PyExc EtlState :=
  processList initState data


/-! ## Specification-side definitions

Helpers that restate, in the spec's vocabulary, what the emitted rows
contain; the theorems below relate them to the embedded code. -/

/-- Dictionary lookup with the Python "absent key maps to `None`"
convention. -/
def dictGet (kvs : List (String × Json)) (k : String) : Json :=
  (kvs.lookup k).getD .null

/-- `dictGet` lifted to a `Json` value (`null` on a non-object). -/
def jLookup (v : Json) (k : String) : Json :=
  match v with
  | .obj kvs => dictGet kvs k
  | _ => .null

/-- `dictGet` with an explicit default. -/
def jLookupD (v : Json) (k : String) (dflt : Json) : Json :=
  match v with
  | .obj kvs => (kvs.lookup k).getD dflt
  | _ => dflt

/-- The string carried by a `Json.str`, if any. -/
def jstrOpt : Json → Option String
  | .str s => some s
  | _ => none

/-- Is this value a JSON string? -/
def isJstr (v : Json) : Bool := (jstrOpt v).isSome

/-- The `defeatReasons` values on which the flattening of lines 75-77
and 96 does not raise: any non-list, or a list of strings. -/
def goodDr (v : Json) : Bool :=
  match v with
  | .arr xs => xs.all isJstr
  | _ => true

/-- An option mapping the curated branch processes without raising. -/
def goodOpt (o : Json) : Bool :=
  match o with
  | .obj okvs => goodDr (dictGet okvs "defeatReasons")
  | _ => false

/-- A curation result the curated branch processes without raising: a
mapping whose `options` (absent meaning the empty list) is a list of
processable option mappings. -/
def goodResult (r : Json) : Bool :=
  match r with
  | .obj rkvs =>
    match (rkvs.lookup "options").getD (.arr []) with
    | .arr os => os.all goodOpt
    | _ => false
  | _ => false

/-- The option list of a curation result (absent means empty). -/
def resultOptions (r : Json) : List Json :=
  match jLookupD r "options" (.arr []) with
  | .arr os => os
  | _ => []

/-- The value the `DefeatReasons` column receives from a raw
`defeatReasons` value the code does not raise on: a list of strings is
joined with `","`; any other value passes through the truthiness gate
of line 96 (falsy values, `null` and absence included, become the
empty string). -/
def drFlattenSpec (v : Json) : Json :=
  match v with
  | .arr xs => .str (String.intercalate "," (xs.filterMap jstrOpt))
  | v => if pyTruthy v then v else .str ""

/-- Modelled from the claim's own words, for comparison with the code
(refinement-style): join a list of strings with `","`; emit the empty
string for `null`/absent; otherwise pass the raw value through
unchanged.  The code disagrees with this on falsy non-null values. -/
def drClaimedSpec (v : Json) : Json :=
  match v with
  | .arr xs => .str (String.intercalate "," (xs.filterMap jstrOpt))
  | .null => .str ""
  | v => v

/-- The amended contract for `DefeatReasons`: lists of strings join;
lists with a non-string element raise `TypeError`; `null`, absence and
every other falsy value (e.g. `false`, `0`, `""`) give the empty
string; truthy non-list values pass through. -/
def defeatReasonsAmendedSpec (v : Json) : Except PyExc Json :=
  match v with
  | .arr xs =>
    if xs.all isJstr then
      .ok (.str (String.intercalate "," (xs.filterMap jstrOpt)))
    else .error .typeError
  | .null => .ok (.str "")
  | v => if pyTruthy v then .ok v else .ok (.str "")

/-- The curated row emitted for option `o` under the per-result values
`cp`/`oid`/`did`, written field-by-field in the spec's vocabulary. -/
def optRowSpec (cp oid did : Json) (ets : String) (o : Json) : Row :=
  [("CurationProvider", cp),
   ("OfferId", oid),
   ("DealerId", did),
   ("UniqueOptionId", jLookup o "uniqueOptionId"),
   ("OptionId", jLookup o "optionId"),
   ("IsMobileDealer", jLookup o "isMobileDealer"),
   ("IsOpen", jLookup o "isOpen"),
   ("Eta", jLookup o "eta"),
   ("ChamaScore", jLookup o "chamaScore"),
   ("ProductBrand", jLookup o "productBrand"),
   ("IsWinner", jLookup o "isWinner"),
   ("MinimumPrice", jLookup o "minimumPrice"),
   ("MaximumPrice", jLookup o "maximumPrice"),
   ("DynamicPrice", jLookup o "dynamicPrice"),
   ("FinalPrice", jLookup o "finalPrice"),
   ("DefeatPrimaryReason", jLookupD o "defeatPrimaryReason" (.str "")),
   ("DefeatReasons", drFlattenSpec (jLookup o "defeatReasons")),
   ("EnqueuedTimeSP", .str ets)]

/-- The curated row for option `o` of curation result `r`. -/
def curatedRowSpec (r o : Json) (ets : String) : Row :=
  optRowSpec (jLookup r "curationProvider") (jLookup r "offerId")
    (jLookup r "dealerId") ets o

/-- The 19-character body `YYYY-MM-DD HH:MM:SS` of a formatted
timestamp. -/
def bodyChars (y mo d h mi s : Nat) : List Char :=
  [digitChar (y / 1000 % 10), digitChar (y / 100 % 10),
   digitChar (y / 10 % 10), digitChar (y % 10), '-',
   digitChar (mo / 10 % 10), digitChar (mo % 10), '-',
   digitChar (d / 10 % 10), digitChar (d % 10), ' ',
   digitChar (h / 10 % 10), digitChar (h % 10), ':',
   digitChar (mi / 10 % 10), digitChar (mi % 10), ':',
   digitChar (s / 10 % 10), digitChar (s % 10)]

/-! ## CSV sink (`save_with_custom_quoting`, lines 115-126)

Model of `DataFrame.to_csv(..., index=False, quoting=csv.QUOTE_NONNUMERIC)`
at the level of one cell / one line: with a nonzero `quoting` pandas
keeps cell values as Python objects (replacing missing values by the
empty-string `na_rep`), and the `csv` writer then emits any value
passing the number check (ints, floats — and `bool`, a subclass of
`int`) as its bare `str()` token, quoting everything else (doubling
embedded quote characters). -/

/-- `'` -/
def squoteC : Char := Char.ofNat 39

/-- The decimal digits of `n`, most significant first (the fuel
dominates the number of digits). -/
def natDigits : Nat → Nat → List Char
  | 0, _ => []
  | fuel + 1, n =>
    if n < 10 then [digitChar n]
    else natDigits fuel (n / 10) ++ [digitChar (n % 10)]

/-- `str(n)` for an integer. -/
def intRepr (n : Int) : String :=
  (if n < 0 then "-" else "") ++ ⟨natDigits (n.natAbs + 1) n.natAbs⟩

/-- `str(x)` as the csv writer applies it to a cell value: `None`
prints as `None`, booleans as `True`/`False`, strings echo their
characters (inside containers Python's `repr` adds single quotes;
escaping inside them is not modelled). -/
def pyStrJ : Json → String
  | .null => "None"
  | .bool b => if b then "True" else "False"
  | .num n => intRepr n
  | .str s => ⟨squoteC :: s.data ++ [squoteC]⟩
  | .arr xs => "[" ++ String.intercalate ", "
      (xs.attach.map (fun x => pyStrJ x.1)) ++ "]"
  | .obj kvs => "\x7b" ++ String.intercalate ", "
      (kvs.attach.map (fun kv =>
        (⟨squoteC :: kv.1.1.data ++ [squoteC]⟩ : String) ++ ": " ++
          pyStrJ kv.1.2)) ++ "\x7d"
decreasing_by
  · have h := List.sizeOf_lt_of_mem x.2
    simp only [Json.arr.sizeOf_spec]
    omega
  · rcases kv with ⟨⟨k, v⟩, hm⟩
    have h := List.sizeOf_lt_of_mem hm
    simp only [Prod.mk.sizeOf_spec] at h
    simp only [Json.obj.sizeOf_spec]
    omega

/-- Double every quote character, as the csv writer does inside a
quoted field. -/
def csvEscape (s : String) : String :=
  ⟨s.data.flatMap (fun c => if c = dquoteC then [dquoteC, dquoteC] else [c])⟩

/-- One serialized CSV cell under `csv.QUOTE_NONNUMERIC`: numbers and
booleans (which pass Python's number check) are bare tokens; a missing
value became the empty string (`na_rep`) and is quoted like any other
string; everything non-numeric is quoted. -/
def csvCell (v : Json) : String :=
  match v with
  | .bool b => if b then "True" else "False"
  | .num n => intRepr n
  | .null => "\"\""
  | .str s => "\"" ++ csvEscape s ++ "\""
  | v => "\"" ++ csvEscape (pyStrJ v) ++ "\""

/-- Does a serialized field start with a quote (i.e. was it emitted as
a quoted string rather than a bare token)? -/
def isQuotedTok (s : String) : Bool :=
  match s.data with
  | c :: _ => c = dquoteC
  | [] => false

/-- The header line: column names are strings, hence quoted. -/
def csvHeaderLine (row : Row) : String :=
  String.intercalate "," (row.map (fun kv => "\"" ++ csvEscape kv.1 ++ "\""))

/-- One data line. -/
def csvLine (row : Row) : String :=
  String.intercalate "," (row.map (fun kv => csvCell kv.2))

/-- `save_with_custom_quoting` (lines 115-122): an empty collection
writes no file; a non-empty one writes a header line plus one line per
row. -/
def save_with_custom_quoting (df : List Row) : Option (List String) :=
  match df with
  | [] => none
  | r :: _ => some (csvHeaderLine r :: df.map csvLine)

/-- The value of the local variable `defeat_reasons` after lines
75-77, before the truthiness gate of line 96: a list is joined (here
stated for lists of strings), anything else is untouched. -/
def drPreGate (v : Json) : Json :=
  match v with
  | .arr xs => .str (String.intercalate "," (xs.filterMap jstrOpt))
  | v => v

/-! ## Theorems -/

theorem bindOk {α β : Type} (a : α) (f : α → Except PyExc β) :
    (Except.ok a : Except PyExc α) >>= f = f a := rfl

theorem bindErr {α β : Type} (e : PyExc) (f : α → Except PyExc β) :
    (Except.error e : Except PyExc α) >>= f = Except.error e := rfl

theorem pureOk {α : Type} (a : α) :
    (pure a : Except PyExc α) = Except.ok a := rfl

theorem digitChar_ne_space (n : Nat) : digitChar n ≠ ' ' := by
  unfold digitChar; split <;> decide

theorem digitChar_ne_U (n : Nat) : digitChar n ≠ 'U' := by
  unfold digitChar; split <;> decide

theorem removeUTC_nil : removeUTC [] = [] := rfl

theorem removeUTC_utc (rest : List Char) :
    removeUTC (' ' :: 'U' :: 'T' :: 'C' :: rest) = removeUTC rest := rfl

theorem removeUTC_cons_ne (c : Char) (cs : List Char) (hc : c ≠ ' ') :
    removeUTC (c :: cs) = c :: removeUTC cs := by
  rw [removeUTC.eq_def]
  split
  · rename_i h; rw [List.cons.injEq] at h; exact absurd h.1 hc
  · rename_i heq
    injection heq with h1 h2
    subst h1; subst h2; rfl
  · rename_i heq; exact absurd heq (List.cons_ne_nil _ _)

theorem removeUTC_cons_space (c : Char) (cs : List Char) (hc : c ≠ 'U') :
    removeUTC (' ' :: c :: cs) = ' ' :: removeUTC (c :: cs) := by
  rw [removeUTC.eq_def]
  split
  · rename_i h
    rw [List.cons.injEq, List.cons.injEq] at h
    exact absurd h.2.1 hc
  · rename_i heq
    injection heq with h1 h2
    subst h1; subst h2; rfl
  · rename_i heq; exact absurd heq (List.cons_ne_nil _ _)

theorem removeUTC_fmt (y mo d h mi s : Nat) :
    removeUTC (fmtTimestampUTC y mo d h mi s).data =
      bodyChars y mo d h mi s := by
  show removeUTC
    [digitChar (y / 1000 % 10), digitChar (y / 100 % 10),
     digitChar (y / 10 % 10), digitChar (y % 10), '-',
     digitChar (mo / 10 % 10), digitChar (mo % 10), '-',
     digitChar (d / 10 % 10), digitChar (d % 10), ' ',
     digitChar (h / 10 % 10), digitChar (h % 10), ':',
     digitChar (mi / 10 % 10), digitChar (mi % 10), ':',
     digitChar (s / 10 % 10), digitChar (s % 10), ' ', 'U', 'T', 'C'] =
    bodyChars y mo d h mi s
  rw [removeUTC_cons_ne _ _ (digitChar_ne_space _),
      removeUTC_cons_ne _ _ (digitChar_ne_space _),
      removeUTC_cons_ne _ _ (digitChar_ne_space _),
      removeUTC_cons_ne _ _ (digitChar_ne_space _),
      removeUTC_cons_ne _ _ (by decide : ('-' : Char) ≠ ' '),
      removeUTC_cons_ne _ _ (digitChar_ne_space _),
      removeUTC_cons_ne _ _ (digitChar_ne_space _),
      removeUTC_cons_ne _ _ (by decide : ('-' : Char) ≠ ' '),
      removeUTC_cons_ne _ _ (digitChar_ne_space _),
      removeUTC_cons_ne _ _ (digitChar_ne_space _),
      removeUTC_cons_space _ _ (digitChar_ne_U _),
      removeUTC_cons_ne _ _ (digitChar_ne_space _),
      removeUTC_cons_ne _ _ (digitChar_ne_space _),
      removeUTC_cons_ne _ _ (by decide : ((':') : Char) ≠ ' '),
      removeUTC_cons_ne _ _ (digitChar_ne_space _),
      removeUTC_cons_ne _ _ (digitChar_ne_space _),
      removeUTC_cons_ne _ _ (by decide : ((':') : Char) ≠ ' '),
      removeUTC_cons_ne _ _ (digitChar_ne_space _),
      removeUTC_cons_ne _ _ (digitChar_ne_space _),
      removeUTC_utc, removeUTC_nil]
  rfl

theorem digitVal_digitChar (n : Nat) (h : n < 10) :
    digitVal (digitChar n) = some n := by
  interval_cases n <;> rfl

theorem digitVal_digitChar_mod (a : Nat) :
    digitVal (digitChar (a % 10)) = some (a % 10) :=
  digitVal_digitChar _ (Nat.mod_lt _ (by decide))

theorem parse2_digits (a b : Nat) (r : List Char) :
    parse2 (digitChar (a % 10) :: digitChar (b % 10) :: r) =
      some ((a % 10) * 10 + b % 10, r) := by
  simp [parse2, digitVal_digitChar_mod]

theorem parse4_digits (a b c d : Nat) (r : List Char) :
    parse4 (digitChar (a % 10) :: digitChar (b % 10) :: digitChar (c % 10)
        :: digitChar (d % 10) :: r) =
      some ((a % 10) * 1000 + (b % 10) * 100 + (c % 10) * 10 + d % 10, r) := by
  simp [parse4, digitVal_digitChar_mod]

theorem daysInMonth_le (y m : Nat) : daysInMonth y m ≤ 31 := by
  unfold daysInMonth
  split
  · split <;> decide
  · split <;> decide

theorem strptime_bodyChars (y mo d h mi s : Nat)
    (hv : validDateTime y mo d h mi s) :
    strptimeYmdHMS (bodyChars y mo d h mi s) = .ok ⟨y, mo, d, h, mi, s⟩ := by
  obtain ⟨h1, h2, h3, h4, h5, h6, h7, h8, h9⟩ := hv
  have hd31 : d ≤ 31 := le_trans h6 (daysInMonth_le y mo)
  have ey : (y / 1000 % 10) * 1000 + (y / 100 % 10) * 100 +
      (y / 10 % 10) * 10 + y % 10 = y := by omega
  have emo : (mo / 10 % 10) * 10 + mo % 10 = mo := by omega
  have ed : (d / 10 % 10) * 10 + d % 10 = d := by omega
  have eh : (h / 10 % 10) * 10 + h % 10 = h := by omega
  have emi : (mi / 10 % 10) * 10 + mi % 10 = mi := by omega
  have es : (s / 10 % 10) * 10 + s % 10 = s := by omega
  unfold strptimeYmdHMS bodyChars
  rw [parse4_digits]
  simp only [Option.bind_eq_bind, Option.some_bind, expectChar,
    reduceIte, parse2_digits, List.isEmpty_cons, List.isEmpty_nil,
    Bool.false_eq_true]
  rw [ey, emo, ed, eh, emi, es]
  rw [if_pos ⟨h1, h2, h3, h4, h5, h6, h7, h8, h9⟩]

/-- C1: for every input string of the exact zero-padded form
`"YYYY-MM-DD HH:MM:SS UTC"` (with components a valid datetime, and the
instant at least 3 hours after `datetime.min` so the shifted instant
exists), `convert_to_brasilian_time` returns exactly the `DD/MM/YYYY`
rendering of the calendar date 3 hours earlier: the same date when the
hour is at least 3, the previous calendar day otherwise.  The result
is the 10-character date only — no time of day, no timezone
indicator. -/
theorem convert_to_brasilian_time_correct (y mo d h mi s : Nat)
    (hv : validDateTime y mo d h mi s)
    (hmin : ¬(y = 1 ∧ mo = 1 ∧ d = 1 ∧ h < 3)) :
    convert_to_brasilian_time (.str (fmtTimestampUTC y mo d h mi s)) =
      .ok (fmtDMY (if 3 ≤ h then (y, mo, d) else prevDate (y, mo, d))) := by
  simp only [convert_to_brasilian_time]
  rw [removeUTC_fmt, strptime_bodyChars y mo d h mi s hv]
  by_cases h3 : 3 ≤ h
  · simp [sub3Hours, h3, strftimeDMY, bindOk]
  · have hnm : ¬(y = 1 ∧ mo = 1 ∧ d = 1) := fun hc =>
      hmin ⟨hc.1, hc.2.1, hc.2.2, by omega⟩
    rcases hpd : prevDate (y, mo, d) with ⟨py, pm, pd⟩
    simp [sub3Hours, h3, hnm, strftimeDMY, hpd, bindOk]

/-- Witness for C1 at the spec's midnight-crossing example:
`"2021-09-05 02:00:00 UTC"` yields `"04/09/2021"`. -/
theorem convert_to_brasilian_time_correct_witness :
    validDateTime 2021 9 5 2 0 0 ∧
    ¬(2021 = 1 ∧ 9 = 1 ∧ 5 = 1 ∧ 2 < 3) ∧
    convert_to_brasilian_time (.str (fmtTimestampUTC 2021 9 5 2 0 0)) =
      .ok (fmtDMY (if 3 ≤ 2 then ((2021 : Nat), (9 : Nat), (5 : Nat))
        else prevDate (2021, 9, 5))) ∧
    fmtTimestampUTC 2021 9 5 2 0 0 = "2021-09-05 02:00:00 UTC" ∧
    fmtDMY (prevDate (2021, 9, 5)) = "04/09/2021" :=
  ⟨by decide, by decide,
   convert_to_brasilian_time_correct 2021 9 5 2 0 0 (by decide) (by decide),
   rfl, rfl⟩

theorem pyGet_obj (kvs : List (String × Json)) (k : String) :
    pyGet (.obj kvs) k = .ok (dictGet kvs k) := rfl

theorem processList_append (st : EtlState) (a b : List Json) :
    processList st (a ++ b) =
      processList st a >>= fun st2 => processList st2 b := by
  induction a generalizing st with
  | nil => simp [processList, bindOk]
  | cons r rs ih =>
    simp only [List.cons_append, processList]
    cases h : processRecord st r with
    | ok st2 => simp only [List.append_eq, ih st2]
    | error e => simp only [bindErr]

theorem processRecord_time_error (st : EtlState)
    (kvs : List (String × Json)) (e : PyExc)
    (h : convert_to_brasilian_time (dictGet kvs "EnqueuedTimeUtc") = .error e) :
    processRecord st (.obj kvs) = .error e := by
  unfold processRecord
  rw [pyGet_obj, bindOk, h, bindErr]

/-- C7: an envelope whose enqueued-time string does not match the
expected pattern (its `convert_to_brasilian_time` call raises) makes
the whole run abort: however many envelopes processed fine before it
and whatever comes after it, `processList` propagates the error out
of the per-envelope loop instead of skipping the record the way
payload decode errors are skipped. -/
theorem bad_timestamp_aborts_run (st st2 : EtlState) (pre rest : List Json)
    (kvs : List (String × Json)) (ts : String) (e : PyExc)
    (hpre : processList st pre = .ok st2)
    (hts : dictGet kvs "EnqueuedTimeUtc" = .str ts)
    (hbad : convert_to_brasilian_time (.str ts) = .error e) :
    processList st (pre ++ .obj kvs :: rest) = .error e := by
  rw [processList_append, hpre, bindOk]
  simp only [processList]
  rw [processRecord_time_error st2 kvs e (by rw [hts]; exact hbad)]

/-- Witness for C7: a batch of one good envelope followed by one whose
timestamp `"2021-13-99 99:99:99 UTC"` matches no valid datetime; the
run aborts with the `ValueError` even though a third envelope
follows. -/
theorem bad_timestamp_aborts_run_witness :
    processList initState
      [Json.obj [("EnqueuedTimeUtc", .str "2021-09-05 08:04:08 UTC"),
                 ("EventName", .str "X"), ("Payload", .str "1")]] =
      .ok { initState with diagnostics := [] } ∧
    convert_to_brasilian_time (.str "2021-13-99 99:99:99 UTC") =
      .error .valueError ∧
    processList initState
      ([Json.obj [("EnqueuedTimeUtc", .str "2021-09-05 08:04:08 UTC"),
                  ("EventName", .str "X"), ("Payload", .str "1")]] ++
        Json.obj [("EnqueuedTimeUtc", .str "2021-13-99 99:99:99 UTC")] ::
        [Json.obj [("EnqueuedTimeUtc", .str "2021-09-05 08:04:08 UTC"),
                   ("EventName", .str "X"), ("Payload", .str "1")]]) =
      .error .valueError :=
  ⟨rfl, rfl,
   bad_timestamp_aborts_run initState _ _ _ _ "2021-13-99 99:99:99 UTC"
     .valueError rfl rfl rfl⟩

/-- C9: the timestamp is normalized before the payload is decoded: an
envelope whose `EnqueuedTimeUtc` conversion raises (because the value
is absent, a non-string, or malformed) aborts the run with that error
even when its payload text is not valid JSON — the payload-decode
recovery path is never reached. -/
theorem timestamp_checked_before_payload_decode (st : EtlState)
    (rest : List Json) (kvs : List (String × Json)) (ptxt : String)
    (e : PyExc)
    (hconv : convert_to_brasilian_time (dictGet kvs "EnqueuedTimeUtc") =
      .error e)
    (hpay : dictGet kvs "Payload" = .str ptxt)
    (hjson : json_loads ptxt = none) :
    processList st (.obj kvs :: rest) = .error e := by
  simp only [processList]
  rw [processRecord_time_error st kvs e hconv]

/-- Witness for C9: an envelope with no `EnqueuedTimeUtc` key at all
(`record.get` yields `None`, whose `.replace` raises
`AttributeError`) and the unparsable payload text `"not json"`; the
run aborts with the timestamp error, not a skip. -/
theorem timestamp_checked_before_payload_decode_witness :
    convert_to_brasilian_time
      (dictGet [("EventName", Json.str "X"), ("Payload", Json.str "not json")]
        "EnqueuedTimeUtc") = .error .attributeError ∧
    json_loads "not json" = none ∧
    processList initState
      [Json.obj [("EventName", .str "X"), ("Payload", .str "not json")]] =
      .error .attributeError :=
  ⟨rfl, rfl,
   timestamp_checked_before_payload_decode initState []
     [("EventName", Json.str "X"), ("Payload", Json.str "not json")]
     "not json" .attributeError rfl rfl rfl⟩

theorem processRecord_decode_skip (st : EtlState)
    (kvs : List (String × Json)) (ets ptxt : String)
    (hconv : convert_to_brasilian_time (dictGet kvs "EnqueuedTimeUtc") =
      .ok ets)
    (hpay : dictGet kvs "Payload" = .str ptxt)
    (hjson : json_loads ptxt = none) :
    processRecord st (.obj kvs) =
      .ok { st with diagnostics := st.diagnostics ++ [.obj kvs] } := by
  unfold processRecord
  rw [pyGet_obj, bindOk, hconv, bindOk, pyGet_obj, bindOk, pyGet_obj, bindOk,
    hpay]
  simp [jsonLoadsPy, hjson, pureOk]

/-- C3: an envelope whose payload text is not valid JSON is skipped
entirely — it contributes no row to any of the three collections, the
record itself is appended to the diagnostics — and processing of the
remaining envelopes continues from the same state, so every row the
rest of the batch produces is still produced. -/
theorem malformed_payload_isolated (st : EtlState) (rest : List Json)
    (kvs : List (String × Json)) (ets ptxt : String)
    (hconv : convert_to_brasilian_time (dictGet kvs "EnqueuedTimeUtc") =
      .ok ets)
    (hpay : dictGet kvs "Payload" = .str ptxt)
    (hjson : json_loads ptxt = none) :
    processList st (.obj kvs :: rest) =
      processList { st with diagnostics := st.diagnostics ++ [.obj kvs] }
        rest := by
  simp only [processList]
  rw [processRecord_decode_skip st kvs ets ptxt hconv hpay hjson]

set_option maxRecDepth 20000 in
/-- Witness for C3, on the spec's three-envelope example: envelope 2
has the unparsable payload text `"\x7bnot json"`; the batch result
carries exactly the rows of envelopes 1 and 3 plus the diagnostic for
envelope 2. -/
theorem malformed_payload_isolated_witness :
    convert_to_brasilian_time
      (dictGet [("EnqueuedTimeUtc", Json.str "2021-09-05 08:04:08 UTC"),
                ("EventName", Json.str "DynamicPrice_Result"),
                ("Payload", Json.str "\x7bnot json")] "EnqueuedTimeUtc") =
      .ok "05/09/2021" ∧
    json_loads "\x7bnot json" = none ∧
    processList initState
      [.obj [("EnqueuedTimeUtc", Json.str "2021-09-05 08:04:08 UTC"),
             ("EventName", Json.str "DynamicPrice_Result"),
             ("Payload", Json.str "\x7bnot json")],
       .obj [("EnqueuedTimeUtc", Json.str "2021-09-05 08:04:08 UTC"),
             ("EventName", Json.str "X"), ("Payload", Json.str "1")]] =
      processList
        ⟨[], [], [],
         [.obj [("EnqueuedTimeUtc", Json.str "2021-09-05 08:04:08 UTC"),
                ("EventName", Json.str "DynamicPrice_Result"),
                ("Payload", Json.str "\x7bnot json")]]⟩
        [.obj [("EnqueuedTimeUtc", Json.str "2021-09-05 08:04:08 UTC"),
               ("EventName", Json.str "X"), ("Payload", Json.str "1")]] ∧
    process_case_data
      [.obj [("EnqueuedTimeUtc", .str "2021-09-05 08:04:08 UTC"),
             ("EventName", .str "DynamicPrice_Result"),
             ("Payload", .str "\x7b\"provider\":\"ApplyDynamicPricePerOption\",\"offerId\":\"o1\",\"algorithmOutput\":[\x7b\"uniqueOptionId\":\"u1\",\"bestPrice\":7\x7d]\x7d")],
       .obj [("EnqueuedTimeUtc", .str "2021-09-05 08:04:08 UTC"),
             ("EventName", .str "DynamicPrice_Result"),
             ("Payload", .str "\x7bnot json")],
       .obj [("EnqueuedTimeUtc", .str "2021-09-05 08:04:08 UTC"),
             ("EventName", .str "DynamicPrice_Result"),
             ("Payload", .str "\x7b\"provider\":\"ApplyDynamicPriceRange\",\"offerId\":\"o3\",\"algorithmOutput\":\x7b\"min_global\":1,\"min_recommended\":2,\"max_recommended\":3,\"differenceMinRecommendMinTheory\":4\x7d\x7d")]] =
      .ok { curated_offer_options := [],
            dynamic_price_option :=
              [[("Provider", .str "ApplyDynamicPricePerOption"),
                ("OfferId", .str "o1"),
                ("UniqueOptionId", .str "u1"),
                ("BestPrice", .num 7),
                ("EnqueuedTimeSP", .str "05/09/2021")]],
            dynamic_price_range :=
              [[("Provider", .str "ApplyDynamicPriceRange"),
                ("OfferId", .str "o3"),
                ("MinGlobal", .num 1),
                ("MinRecommended", .num 2),
                ("MaxRecommended", .num 3),
                ("DifferenceMinRecommendMinTheory", .num 4),
                ("EnqueuedTimeSP", .str "05/09/2021")]],
            diagnostics :=
              [.obj [("EnqueuedTimeUtc", .str "2021-09-05 08:04:08 UTC"),
                     ("EventName", .str "DynamicPrice_Result"),
                     ("Payload", .str "\x7bnot json")]] } :=
  ⟨rfl, rfl,
   malformed_payload_isolated initState
     [.obj [("EnqueuedTimeUtc", Json.str "2021-09-05 08:04:08 UTC"),
            ("EventName", Json.str "X"), ("Payload", Json.str "1")]]
     [("EnqueuedTimeUtc", Json.str "2021-09-05 08:04:08 UTC"),
      ("EventName", Json.str "DynamicPrice_Result"),
      ("Payload", Json.str "\x7bnot json")]
     "05/09/2021" "\x7bnot json" rfl rfl rfl,
   rfl⟩

theorem mapPyStr_all_str (xs : List Json) (h : xs.all isJstr = true) :
    mapPyStr xs = .ok (xs.filterMap jstrOpt) := by
  induction xs with
  | nil => rfl
  | cons x xs ih =>
    rw [List.all_cons, Bool.and_eq_true] at h
    obtain ⟨hx, hxs⟩ := h
    cases x <;> simp [isJstr, jstrOpt] at hx
    simp [mapPyStr, pyStrOf, bindOk, ih hxs, pureOk, List.filterMap_cons,
      jstrOpt]

theorem mapPyStr_has_non_str (xs : List Json) (h : xs.all isJstr = false) :
    mapPyStr xs = .error .typeError := by
  induction xs with
  | nil => simp [List.all_nil] at h
  | cons x xs ih =>
    rw [List.all_cons, Bool.and_eq_false_iff] at h
    cases x with
    | str t =>
      have hxs : xs.all isJstr = false := by
        rcases h with h | h
        · simp [isJstr, jstrOpt] at h
        · exact h
      simp [mapPyStr, pyStrOf, bindOk, ih hxs, bindErr]
    | null => simp [mapPyStr, pyStrOf, bindErr]
    | bool b => simp [mapPyStr, pyStrOf, bindErr]
    | num n => simp [mapPyStr, pyStrOf, bindErr]
    | arr ys => simp [mapPyStr, pyStrOf, bindErr]
    | obj kvs => simp [mapPyStr, pyStrOf, bindErr]

theorem joinIfList_good (v : Json) (h : goodDr v = true) :
    joinIfList v = .ok (drPreGate v) := by
  cases v with
  | arr xs =>
    simp only [goodDr] at h
    simp [joinIfList, mapPyStr_all_str xs h, bindOk, pureOk, drPreGate]
  | null => rfl
  | bool b => rfl
  | num n => rfl
  | str t => rfl
  | obj kvs => rfl

theorem gate_str (t : String) :
    (if pyTruthy (.str t) then Json.str t else .str "") = .str t := by
  by_cases h : t = "" <;> simp [pyTruthy, h]

theorem gate_drPreGate (v : Json) :
    (if pyTruthy (drPreGate v) then drPreGate v else .str "") =
      drFlattenSpec v := by
  cases v with
  | arr xs => simp only [drPreGate, drFlattenSpec]; exact gate_str _
  | null => rfl
  | bool b => rfl
  | num n => rfl
  | str t => rfl
  | obj kvs => rfl

theorem mkCuratedRow_good (cp oid did : Json) (ets : String)
    (okvs : List (String × Json))
    (h : goodDr (dictGet okvs "defeatReasons") = true) :
    mkCuratedRow cp oid did ets (.obj okvs) =
      .ok (optRowSpec cp oid did ets (.obj okvs)) := by
  unfold mkCuratedRow
  rw [pyGet_obj, bindOk, joinIfList_good _ h, bindOk]
  simp [pyGet_obj, pyGetDefault, bindOk, pureOk, optRowSpec, jLookup,
    jLookupD, gate_drPreGate, dictGet]

set_option maxRecDepth 8000 in
/-- C2 counterexample: an envelope whose payload parses as JSON but
has no `algorithmOutput` key, under the recognized provider
`ApplyDynamicPriceRange`.  The claim says an absent
`payload.algorithmOutput` yields `None` in the emitted row rather
than an error; in fact `payload.get('algorithmOutput')` returns
`None` and line 47 then calls `.get` on `None`, raising
`AttributeError` and aborting the run with no row at all. -/
theorem absent_algorithmOutput_raises :
    json_loads "\x7b\"provider\":\"ApplyDynamicPriceRange\"\x7d" =
      some (.obj [("provider", .str "ApplyDynamicPriceRange")]) ∧
    process_case_data
      [.obj [("EnqueuedTimeUtc", .str "2021-09-05 08:04:08 UTC"),
             ("EventName", .str "DynamicPrice_Result"),
             ("Payload",
              .str "\x7b\"provider\":\"ApplyDynamicPriceRange\"\x7d")]] =
      .error .attributeError :=
  ⟨rfl, rfl⟩

/-- C2 amended: extraction of envelope fields other than
`algorithmOutput` never raises on absence — `payload.provider`,
`payload.offerId`, the per-result fields (`curationProvider`,
`offerId`, `dealerId`) and every per-option field come out as
`null`/default via `curatedRowSpec` when absent — but
`payload.algorithmOutput` must be present with the right shape once
the provider is recognized (its absence is a structural failure, as
the counterexample shows). -/
theorem field_extraction_absent_to_null (st : EtlState)
    (kvs rkvs okvs : List (String × Json)) (ets ptxt : String)
    (hconv : convert_to_brasilian_time (dictGet kvs "EnqueuedTimeUtc") =
      .ok ets)
    (hpay : dictGet kvs "Payload" = .str ptxt) :
    (dictGet kvs "EventName" = .str "CurateOffer_Result" →
      json_loads ptxt = some (.arr [.obj rkvs]) →
      (rkvs.lookup "options").getD (.arr []) = .arr [.obj okvs] →
      goodDr (dictGet okvs "defeatReasons") = true →
      processRecord st (.obj kvs) =
        .ok { st with curated_offer_options := st.curated_offer_options ++
          [curatedRowSpec (.obj rkvs) (.obj okvs) ets] }) ∧
    (dictGet kvs "EventName" = .str "DynamicPrice_Result" →
      ∀ pkvs akvs : List (String × Json),
      json_loads ptxt = some (.obj pkvs) →
      dictGet pkvs "provider" = .str "ApplyDynamicPricePerOption" →
      dictGet pkvs "algorithmOutput" = .arr [.obj akvs] →
      processRecord st (.obj kvs) =
        .ok { st with dynamic_price_option := st.dynamic_price_option ++
          [[("Provider", .str "ApplyDynamicPricePerOption"),
            ("OfferId", dictGet pkvs "offerId"),
            ("UniqueOptionId", dictGet akvs "uniqueOptionId"),
            ("BestPrice", dictGet akvs "bestPrice"),
            ("EnqueuedTimeSP", .str ets)]] }) := by
  constructor
  · intro hev hjson hopts hgood
    unfold processRecord
    rw [pyGet_obj, bindOk, hconv, bindOk, pyGet_obj, bindOk, pyGet_obj,
      bindOk, hpay]
    simp only [jsonLoadsPy]
    rw [hjson]
    rw [hev]
    simp only [isStr, decide_eq_true_eq, reduceIte, String.reduceEq]
    simp only [pyIter, bindOk, processCurateItems, pyGet_obj, pyGetDefault]
    rw [hopts]
    simp only [bindOk, pyIter, processOpts, mkCuratedRow_good _ _ _ _ _ hgood,
      pureOk, curatedRowSpec, jLookup, dictGet, List.append_nil]
  · intro hev pkvs akvs hjson hprov halgo
    unfold processRecord
    rw [pyGet_obj, bindOk, hconv, bindOk, pyGet_obj, bindOk, pyGet_obj,
      bindOk, hpay]
    simp only [jsonLoadsPy]
    rw [hjson]
    rw [hev]
    simp only [isStr, decide_eq_true_eq, reduceIte, String.reduceEq]
    simp only [pyGet_obj, bindOk]
    rw [hprov, halgo]
    simp only [isStr, decide_eq_true_eq, reduceIte, String.reduceEq]
    simp only [pyIter, bindOk, processPriceOptions, mkPriceOptionRow,
      pyGet_obj, bindOk, pureOk, dictGet]

set_option maxRecDepth 8000 in
/-- Witness for the amended C2: a curated envelope whose single result
has one completely empty option mapping; every extracted field comes
out `null` (or its documented default) and nothing raises. -/
theorem field_extraction_absent_to_null_witness :
    convert_to_brasilian_time
      (dictGet [("EnqueuedTimeUtc", Json.str "2021-09-05 08:04:08 UTC"),
                ("EventName", Json.str "CurateOffer_Result"),
                ("Payload", Json.str "[\x7b\"options\":[\x7b\x7d]\x7d]")]
        "EnqueuedTimeUtc") = .ok "05/09/2021" ∧
    json_loads "[\x7b\"options\":[\x7b\x7d]\x7d]" =
      some (.arr [.obj [("options", .arr [.obj []])]]) ∧
    goodDr (dictGet [] "defeatReasons") = true ∧
    processRecord initState
      (.obj [("EnqueuedTimeUtc", .str "2021-09-05 08:04:08 UTC"),
             ("EventName", .str "CurateOffer_Result"),
             ("Payload", .str "[\x7b\"options\":[\x7b\x7d]\x7d]")]) =
      .ok { initState with curated_offer_options :=
        initState.curated_offer_options ++
          [curatedRowSpec (.obj [("options", .arr [.obj []])]) (.obj [])
            "05/09/2021"] } ∧
    curatedRowSpec (.obj [("options", .arr [.obj []])]) (.obj [])
        "05/09/2021" =
      [("CurationProvider", .null), ("OfferId", .null), ("DealerId", .null),
       ("UniqueOptionId", .null), ("OptionId", .null),
       ("IsMobileDealer", .null), ("IsOpen", .null), ("Eta", .null),
       ("ChamaScore", .null), ("ProductBrand", .null), ("IsWinner", .null),
       ("MinimumPrice", .null), ("MaximumPrice", .null),
       ("DynamicPrice", .null), ("FinalPrice", .null),
       ("DefeatPrimaryReason", .str ""), ("DefeatReasons", .str ""),
       ("EnqueuedTimeSP", .str "05/09/2021")] :=
  ⟨rfl, rfl, rfl,
   (field_extraction_absent_to_null initState
     [("EnqueuedTimeUtc", .str "2021-09-05 08:04:08 UTC"),
      ("EventName", .str "CurateOffer_Result"),
      ("Payload", .str "[\x7b\"options\":[\x7b\x7d]\x7d]")]
     [("options", .arr [.obj []])] [] "05/09/2021"
     "[\x7b\"options\":[\x7b\x7d]\x7d]" rfl rfl).1 rfl rfl rfl rfl,
   rfl⟩

theorem joinIfList_bad (xs : List Json) (h : xs.all isJstr = false) :
    joinIfList (.arr xs) = .error .typeError := by
  simp [joinIfList, mapPyStr_has_non_str xs h, bindErr]

theorem mkCuratedRow_badDr (cp oid did : Json) (ets : String)
    (okvs : List (String × Json))
    (h : goodDr (dictGet okvs "defeatReasons") = false) :
    mkCuratedRow cp oid did ets (.obj okvs) = .error .typeError := by
  unfold mkCuratedRow
  rw [pyGet_obj, bindOk]
  cases hdr : dictGet okvs "defeatReasons" with
  | arr xs =>
    rw [hdr] at h
    simp only [goodDr] at h
    rw [joinIfList_bad xs h, bindErr]
  | null => rw [hdr] at h; simp [goodDr] at h
  | bool b => rw [hdr] at h; simp [goodDr] at h
  | num n => rw [hdr] at h; simp [goodDr] at h
  | str t => rw [hdr] at h; simp [goodDr] at h
  | obj kvs2 => rw [hdr] at h; simp [goodDr] at h

theorem amendedSpec_ok (v : Json) (h : goodDr v = true) :
    defeatReasonsAmendedSpec v = .ok (drFlattenSpec v) := by
  cases v with
  | arr xs =>
    simp only [goodDr] at h
    simp [defeatReasonsAmendedSpec, drFlattenSpec, h]
  | null => rfl
  | bool b =>
    by_cases ht : pyTruthy (.bool b) <;>
      simp [defeatReasonsAmendedSpec, drFlattenSpec, ht]
  | num n =>
    by_cases ht : pyTruthy (.num n) <;>
      simp [defeatReasonsAmendedSpec, drFlattenSpec, ht]
  | str t =>
    by_cases ht : pyTruthy (.str t) <;>
      simp [defeatReasonsAmendedSpec, drFlattenSpec, ht]
  | obj kvs =>
    by_cases ht : pyTruthy (.obj kvs) <;>
      simp [defeatReasonsAmendedSpec, drFlattenSpec, ht]

theorem amendedSpec_bad (v : Json) (h : goodDr v = false) :
    defeatReasonsAmendedSpec v = .error .typeError := by
  cases v with
  | arr xs => simp only [goodDr] at h; simp [defeatReasonsAmendedSpec, h]
  | null => simp [goodDr] at h
  | bool b => simp [goodDr] at h
  | num n => simp [goodDr] at h
  | str t => simp [goodDr] at h
  | obj kvs => simp [goodDr] at h

theorem optRowSpec_lookup_dr (cp oid did : Json) (ets : String) (o : Json) :
    (optRowSpec cp oid did ets o).lookup "DefeatReasons" =
      some (drFlattenSpec (jLookup o "defeatReasons")) := rfl

theorem optRowSpec_lookup_dpr (cp oid did : Json) (ets : String) (o : Json) :
    (optRowSpec cp oid did ets o).lookup "DefeatPrimaryReason" =
      some (jLookupD o "defeatPrimaryReason" (.str "")) := rfl

/-- C4 counterexample: an option with `defeatReasons: false`.  `false`
is neither a sequence of strings nor absent/null, so the claim demands
it pass through unchanged; the truthiness gate of line 96 instead
replaces every falsy value by the empty string, and the emitted field
is `""`, not `false`. -/
theorem defeatReasons_falsy_not_passed_through :
    mkCuratedRow .null .null .null "05/09/2021"
        (.obj [("defeatReasons", .bool false)]) =
      .ok [("CurationProvider", .null), ("OfferId", .null),
           ("DealerId", .null), ("UniqueOptionId", .null),
           ("OptionId", .null), ("IsMobileDealer", .null),
           ("IsOpen", .null), ("Eta", .null), ("ChamaScore", .null),
           ("ProductBrand", .null), ("IsWinner", .null),
           ("MinimumPrice", .null), ("MaximumPrice", .null),
           ("DynamicPrice", .null), ("FinalPrice", .null),
           ("DefeatPrimaryReason", .str ""), ("DefeatReasons", .str ""),
           ("EnqueuedTimeSP", .str "05/09/2021")] ∧
    Json.str "" ≠ Json.bool false :=
  ⟨rfl, fun h => Json.noConfusion h⟩

/-- C4 amended: the emitted `DefeatReasons` field follows
`defeatReasonsAmendedSpec`: a list of strings joins with `","`; a list
with a non-string element raises `TypeError`; `null`, absence and
every other falsy raw value (`false`, `0`, `""`, empty containers)
give the empty string; truthy non-list values pass through
unchanged. -/
theorem defeatReasons_flatten_amended (cp oid did : Json) (ets : String)
    (okvs : List (String × Json)) :
    (defeatReasonsAmendedSpec (dictGet okvs "defeatReasons") =
        .error .typeError ∧
      mkCuratedRow cp oid did ets (.obj okvs) = .error .typeError) ∨
    (∃ w, defeatReasonsAmendedSpec (dictGet okvs "defeatReasons") = .ok w ∧
      ∃ row, mkCuratedRow cp oid did ets (.obj okvs) = .ok row ∧
        row.lookup "DefeatReasons" = some w) := by
  by_cases h : goodDr (dictGet okvs "defeatReasons") = true
  · right
    refine ⟨drFlattenSpec (dictGet okvs "defeatReasons"),
      amendedSpec_ok _ h, optRowSpec cp oid did ets (.obj okvs),
      mkCuratedRow_good cp oid did ets okvs h, ?_⟩
    rw [optRowSpec_lookup_dr]
    rfl
  · left
    have hf : goodDr (dictGet okvs "defeatReasons") = false := by
      simpa using h
    exact ⟨amendedSpec_bad _ hf, mkCuratedRow_badDr cp oid did ets okvs hf⟩

/-- C10: in an emitted curated row `DefeatPrimaryReason` is the raw
`defeatPrimaryReason` value whenever the key is present — including a
present `null`, which stays `null` — and defaults to the empty string
only when the key is absent from the option mapping. -/
theorem defeatPrimaryReason_null_vs_absent (cp oid did : Json)
    (ets : String) (okvs : List (String × Json))
    (h : goodDr (dictGet okvs "defeatReasons") = true) :
    mkCuratedRow cp oid did ets (.obj okvs) =
      .ok (optRowSpec cp oid did ets (.obj okvs)) ∧
    (optRowSpec cp oid did ets (.obj okvs)).lookup "DefeatPrimaryReason" =
      some ((okvs.lookup "defeatPrimaryReason").getD (.str "")) ∧
    (okvs.lookup "defeatPrimaryReason" = none →
      (optRowSpec cp oid did ets (.obj okvs)).lookup "DefeatPrimaryReason" =
        some (.str "")) ∧
    (okvs.lookup "defeatPrimaryReason" = some .null →
      (optRowSpec cp oid did ets (.obj okvs)).lookup "DefeatPrimaryReason" =
        some .null) := by
  refine ⟨mkCuratedRow_good cp oid did ets okvs h, ?_, ?_, ?_⟩
  · rw [optRowSpec_lookup_dpr]; rfl
  · intro heq; rw [optRowSpec_lookup_dpr]
    show some (((okvs.lookup "defeatPrimaryReason").getD (.str ""))) = _
    rw [heq]; rfl
  · intro heq; rw [optRowSpec_lookup_dpr]
    show some (((okvs.lookup "defeatPrimaryReason").getD (.str ""))) = _
    rw [heq]; rfl

/-- Witness for C10: an option carrying `defeatPrimaryReason: null`;
the row carries `null`, not the empty string. -/
theorem defeatPrimaryReason_null_vs_absent_witness :
    goodDr (dictGet [("defeatPrimaryReason", Json.null)] "defeatReasons") =
      true ∧
    mkCuratedRow .null .null .null "05/09/2021"
        (.obj [("defeatPrimaryReason", Json.null)]) =
      .ok (optRowSpec .null .null .null "05/09/2021"
        (.obj [("defeatPrimaryReason", Json.null)])) ∧
    (optRowSpec .null .null .null "05/09/2021"
        (.obj [("defeatPrimaryReason", Json.null)])).lookup
      "DefeatPrimaryReason" = some .null ∧
    Json.null ≠ Json.str "" :=
  ⟨rfl,
   (defeatPrimaryReason_null_vs_absent .null .null .null "05/09/2021"
     [("defeatPrimaryReason", Json.null)] rfl).1,
   ((defeatPrimaryReason_null_vs_absent .null .null .null "05/09/2021"
     [("defeatPrimaryReason", Json.null)] rfl).2.2.2 rfl),
   fun h => Json.noConfusion h⟩

theorem processOpts_good (cp oid did : Json) (ets : String) (os : List Json)
    (h : os.all goodOpt = true) :
    processOpts cp oid did ets os =
      .ok (os.map (optRowSpec cp oid did ets)) := by
  induction os with
  | nil => rfl
  | cons o os ih =>
    rw [List.all_cons, Bool.and_eq_true] at h
    obtain ⟨ho, hos⟩ := h
    cases o with
    | obj okvs =>
      simp only [goodOpt] at ho
      simp [processOpts, mkCuratedRow_good _ _ _ _ _ ho, bindOk, ih hos,
        pureOk]
    | null => simp [goodOpt] at ho
    | bool b => simp [goodOpt] at ho
    | num n => simp [goodOpt] at ho
    | str t => simp [goodOpt] at ho
    | arr ys => simp [goodOpt] at ho

theorem processCurateItems_good (ets : String) (items : List Json)
    (h : items.all goodResult = true) :
    processCurateItems ets items =
      .ok (items.flatMap (fun r => (resultOptions r).map
        (fun o => curatedRowSpec r o ets))) := by
  induction items with
  | nil => rfl
  | cons r rs ih =>
    rw [List.all_cons, Bool.and_eq_true] at h
    obtain ⟨hr, hrs⟩ := h
    cases r with
    | obj rkvs =>
      simp only [goodResult] at hr
      cases hop : (rkvs.lookup "options").getD (.arr []) with
      | arr os =>
        rw [hop] at hr
        simp only [processCurateItems, pyGet_obj, bindOk, pyGetDefault]
        rw [hop]
        simp only [pyIter, bindOk, processOpts_good _ _ _ _ os hr, pureOk,
          ih hrs]
        simp [List.flatMap_cons, resultOptions, jLookupD, hop,
          curatedRowSpec, jLookup, dictGet]
      | null => rw [hop] at hr; simp at hr
      | bool b => rw [hop] at hr; simp at hr
      | num n => rw [hop] at hr; simp at hr
      | str t => rw [hop] at hr; simp at hr
      | obj kvs2 => rw [hop] at hr; simp at hr
    | null => simp [goodResult] at hr
    | bool b => simp [goodResult] at hr
    | num n => simp [goodResult] at hr
    | str t => simp [goodResult] at hr
    | arr ys => simp [goodResult] at hr

/-- C5: a `CurateOffer_Result` envelope (decodable payload, a list of
well-shaped curation results) appends to the curated collection
exactly one row per option, summed over all results — a result whose
`options` field is absent contributes zero rows — and the rows appear
in source order: results in payload order, each result's options in
sequence order.  The row count equals the sum of the per-result option
counts. -/
theorem curate_fanout_cardinality (st : EtlState)
    (kvs : List (String × Json)) (items : List Json) (ets ptxt : String)
    (hconv : convert_to_brasilian_time (dictGet kvs "EnqueuedTimeUtc") =
      .ok ets)
    (hev : dictGet kvs "EventName" = .str "CurateOffer_Result")
    (hpay : dictGet kvs "Payload" = .str ptxt)
    (hjson : json_loads ptxt = some (.arr items))
    (hgood : items.all goodResult = true) :
    processRecord st (.obj kvs) =
      .ok { st with curated_offer_options := st.curated_offer_options ++
        items.flatMap (fun r => (resultOptions r).map
          (fun o => curatedRowSpec r o ets)) } ∧
    (items.flatMap (fun r => (resultOptions r).map
        (fun o => curatedRowSpec r o ets))).length =
      (items.map (fun r => (resultOptions r).length)).sum := by
  constructor
  · unfold processRecord
    rw [pyGet_obj, bindOk, hconv, bindOk, pyGet_obj, bindOk, pyGet_obj,
      bindOk, hpay]
    simp only [jsonLoadsPy]
    rw [hjson, hev]
    simp only [isStr, decide_eq_true_eq, reduceIte, String.reduceEq]
    simp only [pyIter, bindOk, processCurateItems_good ets items hgood,
      pureOk]
  · rw [List.length_flatMap]
    congr 1
    apply List.map_congr_left
    intro r _
    simp [List.length_map]

set_option maxRecDepth 40000 in
/-- Witness for C5 at the spec's fan-out example: 2 curation results
with 3 and 0 options (the second result has no `options` key) yield
exactly 3 curated rows, in order result-1/option-1, -2, -3. -/
theorem curate_fanout_cardinality_witness :
    processRecord initState
      (.obj [("EnqueuedTimeUtc", .str "2021-09-05 08:04:08 UTC"),
             ("EventName", .str "CurateOffer_Result"),
             ("Payload", .str "[\x7b\"curationProvider\":\"cp\",\"offerId\":\"o\",\"dealerId\":\"d\",\"options\":[\x7b\"optionId\":1\x7d,\x7b\"optionId\":2\x7d,\x7b\"optionId\":3\x7d]\x7d,\x7b\"curationProvider\":\"cp2\"\x7d]")]) =
      .ok ⟨[[("CurationProvider", .str "cp"), ("OfferId", .str "o"),
             ("DealerId", .str "d"), ("UniqueOptionId", .null),
             ("OptionId", .num 1), ("IsMobileDealer", .null),
             ("IsOpen", .null), ("Eta", .null), ("ChamaScore", .null),
             ("ProductBrand", .null), ("IsWinner", .null),
             ("MinimumPrice", .null), ("MaximumPrice", .null),
             ("DynamicPrice", .null), ("FinalPrice", .null),
             ("DefeatPrimaryReason", .str ""), ("DefeatReasons", .str ""),
             ("EnqueuedTimeSP", .str "05/09/2021")],
            [("CurationProvider", .str "cp"), ("OfferId", .str "o"),
             ("DealerId", .str "d"), ("UniqueOptionId", .null),
             ("OptionId", .num 2), ("IsMobileDealer", .null),
             ("IsOpen", .null), ("Eta", .null), ("ChamaScore", .null),
             ("ProductBrand", .null), ("IsWinner", .null),
             ("MinimumPrice", .null), ("MaximumPrice", .null),
             ("DynamicPrice", .null), ("FinalPrice", .null),
             ("DefeatPrimaryReason", .str ""), ("DefeatReasons", .str ""),
             ("EnqueuedTimeSP", .str "05/09/2021")],
            [("CurationProvider", .str "cp"), ("OfferId", .str "o"),
             ("DealerId", .str "d"), ("UniqueOptionId", .null),
             ("OptionId", .num 3), ("IsMobileDealer", .null),
             ("IsOpen", .null), ("Eta", .null), ("ChamaScore", .null),
             ("ProductBrand", .null), ("IsWinner", .null),
             ("MinimumPrice", .null), ("MaximumPrice", .null),
             ("DynamicPrice", .null), ("FinalPrice", .null),
             ("DefeatPrimaryReason", .str ""), ("DefeatReasons", .str ""),
             ("EnqueuedTimeSP", .str "05/09/2021")]], [], [], []⟩ :=
  Eq.trans
    (curate_fanout_cardinality initState
      [("EnqueuedTimeUtc", .str "2021-09-05 08:04:08 UTC"),
       ("EventName", .str "CurateOffer_Result"),
       ("Payload", .str "[\x7b\"curationProvider\":\"cp\",\"offerId\":\"o\",\"dealerId\":\"d\",\"options\":[\x7b\"optionId\":1\x7d,\x7b\"optionId\":2\x7d,\x7b\"optionId\":3\x7d]\x7d,\x7b\"curationProvider\":\"cp2\"\x7d]")]
      [.obj [("curationProvider", .str "cp"), ("offerId", .str "o"),
             ("dealerId", .str "d"),
             ("options", .arr [.obj [("optionId", .num 1)],
                               .obj [("optionId", .num 2)],
                               .obj [("optionId", .num 3)]])],
       .obj [("curationProvider", .str "cp2")]]
      "05/09/2021"
      "[\x7b\"curationProvider\":\"cp\",\"offerId\":\"o\",\"dealerId\":\"d\",\"options\":[\x7b\"optionId\":1\x7d,\x7b\"optionId\":2\x7d,\x7b\"optionId\":3\x7d]\x7d,\x7b\"curationProvider\":\"cp2\"\x7d]"
      rfl rfl rfl rfl rfl).1
    rfl

theorem isStr_refl (t : String) : isStr (.str t) t = true := by
  simp [isStr]

theorem isStr_eq_false (v : Json) (t : String) (h : v ≠ .str t) :
    isStr v t = false := by
  cases v with
  | str u =>
    simp only [isStr, decide_eq_false_iff_not]
    exact fun he => h (by rw [he])
  | null => rfl
  | bool b => rfl
  | num n => rfl
  | arr xs => rfl
  | obj kvs => rfl

/-- C6: an envelope with a decodable payload whose `EventName` is
neither `"DynamicPrice_Result"` nor `"CurateOffer_Result"` leaves the
state untouched (zero rows in all three collections, no error); and a
`DynamicPrice_Result` envelope whose decoded payload object carries a
`provider` other than `"ApplyDynamicPriceRange"` and
`"ApplyDynamicPricePerOption"` likewise adds zero rows and raises
nothing. -/
theorem unknown_event_or_provider_zero_rows (st : EtlState)
    (kvs : List (String × Json)) (ets ptxt : String) (pv : Json)
    (hconv : convert_to_brasilian_time (dictGet kvs "EnqueuedTimeUtc") =
      .ok ets)
    (hpay : dictGet kvs "Payload" = .str ptxt)
    (hjson : json_loads ptxt = some pv) :
    (dictGet kvs "EventName" ≠ .str "DynamicPrice_Result" →
      dictGet kvs "EventName" ≠ .str "CurateOffer_Result" →
      processRecord st (.obj kvs) = .ok st) ∧
    (∀ pkvs : List (String × Json),
      dictGet kvs "EventName" = .str "DynamicPrice_Result" →
      pv = .obj pkvs →
      dictGet pkvs "provider" ≠ .str "ApplyDynamicPriceRange" →
      dictGet pkvs "provider" ≠ .str "ApplyDynamicPricePerOption" →
      processRecord st (.obj kvs) = .ok st) := by
  constructor
  · intro h1 h2
    unfold processRecord
    rw [pyGet_obj, bindOk, hconv, bindOk, pyGet_obj, bindOk, pyGet_obj,
      bindOk, hpay]
    simp only [jsonLoadsPy]
    rw [hjson]
    simp only [isStr_eq_false _ _ h1, isStr_eq_false _ _ h2,
      Bool.false_eq_true, reduceIte, pureOk]
  · intro pkvs hev hpv hp1 hp2
    unfold processRecord
    rw [pyGet_obj, bindOk, hconv, bindOk, pyGet_obj, bindOk, pyGet_obj,
      bindOk, hpay]
    simp only [jsonLoadsPy]
    rw [hjson, hpv, hev]
    simp only [isStr_refl, reduceIte]
    simp only [pyGet_obj, bindOk]
    simp only [isStr_eq_false _ _ hp1, isStr_eq_false _ _ hp2,
      Bool.false_eq_true, reduceIte, pureOk]

/-- Witness for C6: an envelope with `eventName: "Something_Else"` and
a `DynamicPrice_Result` envelope with `provider: "SomeOtherProvider"`;
both leave the state exactly as it was. -/
theorem unknown_event_or_provider_zero_rows_witness :
    json_loads "\x7b\"a\":1\x7d" = some (.obj [("a", .num 1)]) ∧
    processRecord initState
      (.obj [("EnqueuedTimeUtc", .str "2021-09-05 08:04:08 UTC"),
             ("EventName", .str "Something_Else"),
             ("Payload", .str "\x7b\"a\":1\x7d")]) = .ok initState ∧
    json_loads "\x7b\"provider\":\"SomeOtherProvider\"\x7d" =
      some (.obj [("provider", .str "SomeOtherProvider")]) ∧
    processRecord initState
      (.obj [("EnqueuedTimeUtc", .str "2021-09-05 08:04:08 UTC"),
             ("EventName", .str "DynamicPrice_Result"),
             ("Payload", .str "\x7b\"provider\":\"SomeOtherProvider\"\x7d")]) =
      .ok initState :=
  ⟨rfl,
   (unknown_event_or_provider_zero_rows initState
     [("EnqueuedTimeUtc", .str "2021-09-05 08:04:08 UTC"),
      ("EventName", .str "Something_Else"),
      ("Payload", .str "\x7b\"a\":1\x7d")]
     "05/09/2021" "\x7b\"a\":1\x7d" (.obj [("a", .num 1)])
     rfl rfl rfl).1 (by simp [dictGet, List.lookup]) (by simp [dictGet, List.lookup]),
   rfl,
   (unknown_event_or_provider_zero_rows initState
     [("EnqueuedTimeUtc", .str "2021-09-05 08:04:08 UTC"),
      ("EventName", .str "DynamicPrice_Result"),
      ("Payload", .str "\x7b\"provider\":\"SomeOtherProvider\"\x7d")]
     "05/09/2021" "\x7b\"provider\":\"SomeOtherProvider\"\x7d"
     (.obj [("provider", .str "SomeOtherProvider")])
     rfl rfl rfl).2 [("provider", .str "SomeOtherProvider")]
     rfl rfl (by simp [dictGet, List.lookup]) (by simp [dictGet, List.lookup])⟩

theorem digitChar_ne_dquote (n : Nat) : digitChar n ≠ dquoteC := by
  unfold digitChar; split <;> decide

theorem natDigits_head (fuel n : Nat) :
    natDigits fuel n = [] ∨ ∃ d l, natDigits fuel n = digitChar d :: l := by
  induction fuel generalizing n with
  | zero => left; rfl
  | succ f ih =>
    by_cases h : n < 10
    · right; exact ⟨n, [], by simp [natDigits, h]⟩
    · rcases ih (n / 10) with h0 | ⟨d, l, hd⟩
      · right
        refine ⟨n % 10, [], ?_⟩
        simp [natDigits, h, h0]
      · right
        exact ⟨d, l ++ [digitChar (n % 10)], by simp [natDigits, h, hd]⟩

theorem isQuotedTok_intRepr (n : Int) : isQuotedTok (intRepr n) = false := by
  unfold intRepr
  by_cases h : n < 0
  · rw [if_pos h]; rfl
  · rw [if_neg h]
    show isQuotedTok ⟨natDigits (n.natAbs + 1) n.natAbs⟩ = false
    rcases natDigits_head (n.natAbs + 1) n.natAbs with h0 | ⟨d, l, hd⟩
    · rw [h0]; rfl
    · rw [hd]
      simp [isQuotedTok, digitChar_ne_dquote d]

/-- C8: under the `QUOTE_NONNUMERIC` policy the sink applies,
boolean-typed cells (the values of `IsMobileDealer`, `IsOpen`,
`IsWinner`) serialize as the bare unquoted tokens `True`/`False`,
every string-typed cell (text and the `DD/MM/YYYY` date strings) is
emitted quoted, and every numeric cell is an unquoted literal; a data
line is exactly the comma-join of its serialized cells. -/
theorem csv_quoting_policy :
    (∀ b : Bool, csvCell (Json.bool b) = (if b then "True" else "False") ∧
      isQuotedTok (csvCell (Json.bool b)) = false) ∧
    (∀ s : String, csvCell (Json.str s) = "\"" ++ csvEscape s ++ "\"" ∧
      isQuotedTok (csvCell (Json.str s)) = true) ∧
    (∀ n : Int, csvCell (Json.num n) = intRepr n ∧
      isQuotedTok (csvCell (Json.num n)) = false) ∧
    (∀ row : Row, csvLine row =
      String.intercalate "," (row.map (fun kv => csvCell kv.2))) := by
  refine ⟨?_, ?_, ?_, fun row => rfl⟩
  · intro b
    cases b
    · exact ⟨rfl, rfl⟩
    · exact ⟨rfl, rfl⟩
  · intro s
    exact ⟨rfl, rfl⟩
  · intro n
    exact ⟨rfl, isQuotedTok_intRepr n⟩
